import Mathlib

/-!
Verification of the panel window-state manager and scroll-focus coordinator
of the osvo.github.io résumé page.

The JavaScript source keeps each panel's window state as the presence of the
CSS classes `closed`, `minimized` and `maxwide` on a `.terminal` element.  We
embed a panel as a record of the three booleans and the collection of panels
as an association list from the element id to its state.  The event-handler
branches (red / yellow / green dot, `focusTerminal`, `openFocusScroll`) are
transcribed as pure state transformers; the scroll arithmetic
(`scrollAdjusted` and its delayed re-validation) is transcribed over exact
rationals.
-/

namespace Osvo

/-- Window state of one `.terminal` panel: the three CSS classes
`closed`, `minimized` and `maxwide` (the latter is what the spec calls
`maximized`). -/
structure PanelState where
  closed : Bool
  minimized : Bool
  maximized : Bool
deriving DecidableEq, Repr, Fintype

/-- Panels carry no class initially: not closed, not minimized, not maximized. -/
def PanelState.initial : PanelState := ⟨false, false, false⟩

/-- The registry: all `.terminal` panels keyed by their element id. -/
abbrev Registry := List (String × PanelState)

/-- The registry discovered at startup: every panel in its initial state. -/
def initRegistry (ids : List String) : Registry :=
  ids.map (fun i => (i, PanelState.initial))

/-- `document.getElementById(id)`-style lookup of a panel's state
(first entry with the given id). -/
def getState : Registry → String → Option PanelState
  | [], _ => none
  | e :: rest, id => if e.1 = id then some e.2 else getState rest id

/-- Apply `f` to the state of the panel with the given id, leaving every
other panel untouched (models classList edits on one element). -/
def updatePanel (id : String) (f : PanelState → PanelState) : Registry → Registry
  | [] => []
  | e :: rest =>
      (if e.1 = id then (e.1, f e.2) else e) :: updatePanel id f rest

/-- `document.querySelectorAll('.terminal.maxwide').forEach(t =>
t.classList.remove('maxwide'))`: clear `maximized` on every panel. -/
def clearAllMaximized : Registry → Registry
  | [] => []
  | e :: rest => (e.1, { e.2 with maximized := false }) :: clearAllMaximized rest

/-- Red-dot branch of the delegated click handler:
`term.classList.toggle('closed'); term.classList.remove('minimized', 'maxwide')`. -/
def toggleClosed (id : String) (reg : Registry) : Registry :=
  updatePanel id (fun p => ⟨!p.closed, false, false⟩) reg

/-- Yellow-dot branch of the delegated click handler:
`term.classList.toggle('minimized'); term.classList.remove('closed', 'maxwide')`. -/
def toggleMinimized (id : String) (reg : Registry) : Registry :=
  updatePanel id (fun p => ⟨false, !p.minimized, false⟩) reg

/-- Green-dot branch of the delegated click handler: read `wasMaximized`,
un-maximize every panel, clear `closed`/`minimized` on the target, and
re-add `maxwide` only when the target was not already maximized.  The
handler only fires for an existing `.terminal` element, so an unknown id
is a no-op. -/
def toggleMaximized (id : String) (reg : Registry) : Registry :=
  match getState reg id with
  | none => reg
  | some p =>
      if p.maximized then
        updatePanel id (fun q => { q with closed := false, minimized := false })
          (clearAllMaximized reg)
      else
        updatePanel id (fun q => { q with maximized := true })
          (updatePanel id (fun q => { q with closed := false, minimized := false })
            (clearAllMaximized reg))

/-- `focusTerminal` (the spec's `setMaximizedExclusive`): un-maximize every
panel, then clear `closed`/`minimized` and add `maxwide` on the target. -/
def focusTerminal (id : String) (reg : Registry) : Registry :=
  let reg1 := clearAllMaximized reg
  updatePanel id (fun q => { q with closed := false, minimized := false, maximized := true }) reg1

/-- `refreshTitleState`: the `data-state` string put on the panel's title,
built by pushing `'cerrada'`, `'minimizada'`, `'max'` for the classes that
are present and joining with a space. -/
def refreshTitleState (p : PanelState) : String :=
  let states : List String :=
    (if p.closed then ["cerrada"] else []) ++
    (if p.minimized then ["minimizada"] else []) ++
    (if p.maximized then ["max"] else [])
  String.intercalate " " states

/-- The window-control operations a user can trigger on the registry. -/
inductive Op where
  | red (id : String)
  | yellow (id : String)
  | green (id : String)
  | focus (id : String)
deriving DecidableEq, Repr

/-- One operation applied to the registry. -/
def applyOp (reg : Registry) : Op → Registry
  | .red id => toggleClosed id reg
  | .yellow id => toggleMinimized id reg
  | .green id => toggleMaximized id reg
  | .focus id => focusTerminal id reg

/-- A sequence of operations applied left to right. -/
def applyOps (reg : Registry) (ops : List Op) : Registry :=
  ops.foldl applyOp reg

/-- Number of flags set on one panel. -/
def flagCount (p : PanelState) : Nat :=
  (if p.closed then 1 else 0) + (if p.minimized then 1 else 0) +
    (if p.maximized then 1 else 0)

/-- Per-panel mutual exclusion of `closed`, `minimized`, `maximized`. -/
def panelExclusive (p : PanelState) : Prop := flagCount p ≤ 1

/-- Every panel of the registry satisfies per-panel flag exclusivity. -/
def allExclusive (reg : Registry) : Prop :=
  ∀ e ∈ reg, panelExclusive e.2

instance (p : PanelState) : Decidable (panelExclusive p) :=
  inferInstanceAs (Decidable (flagCount p ≤ 1))

instance (reg : Registry) : Decidable (allExclusive reg) :=
  inferInstanceAs (Decidable (∀ e ∈ reg, panelExclusive e.2))

/-- Number of maximized panels in the registry. -/
def maximizedCount : Registry → Nat
  | [] => 0
  | e :: rest => (if e.2.maximized then 1 else 0) + maximizedCount rest

/-- The registry-wide invariant: at most one panel is maximized. -/
def atMostOneMaximized (reg : Registry) : Prop := maximizedCount reg ≤ 1

/-- The ids of the registry, in order. -/
def keys (reg : Registry) : List String := reg.map Prod.fst

/-! ### Scroll geometry

The geometry is embedded over exact rationals.  `getBoundingClientRect`
yields the panel's top (relative to the viewport) and height; `r.bottom`
of the re-read rectangle in the re-validation callback is carried
separately. -/

/-- `getToolbarOffset`: the `.toolbar` height (0 when the toolbar is absent)
plus the fixed 12-unit margin. -/
def getToolbarOffset (toolbarHeight : Option ℚ) : ℚ :=
  (match toolbarHeight with
   | some h => h
   | none => 0) + 12

/-- The panel's bounding rectangle as read at scroll start. -/
structure Rect where
  top : ℚ
  height : ℚ
deriving DecidableEq, Repr

/-- The rectangle re-read inside the delayed re-validation callback. -/
structure RectTB where
  top : ℚ
  bottom : ℚ
deriving DecidableEq, Repr

/-- Ambient page geometry at the moment `scrollAdjusted` runs. -/
structure Geometry where
  toolbarHeight : Option ℚ
  scrollY : ℚ
  viewportHeight : ℚ
deriving DecidableEq, Repr

/-- Everything `scrollAdjusted` computes and captures: the smooth-scroll
target passed to `window.scrollTo`, the `setTimeout` delay, and the values
the re-validation closure captures (`offset`, `viewportHeight`,
`fitsInViewport`, `forceAdjust`). -/
structure ScrollPlan where
  smoothTarget : ℚ
  delay : ℚ
  offset : ℚ
  viewportHeight : ℚ
  fits : Bool
  forceAdjust : Bool
deriving DecidableEq, Repr

/-- `scrollAdjusted` (second script revision): compute the toolbar offset,
the panel's absolute top, decide `fitsInViewport`, pick the centered or
top-aligned target floored at 0, and schedule the 450-unit re-validation. -/
def scrollAdjusted (g : Geometry) (termRect : Rect) (forceAdjust : Bool) : ScrollPlan :=
  let offset := getToolbarOffset g.toolbarHeight
  let absoluteTermTop := g.scrollY + termRect.top
  let viewportHeight := g.viewportHeight
  let fitsInViewport : Bool := decide (termRect.height + offset + 16 ≤ viewportHeight)
  let targetScrollTop :=
    if fitsInViewport then max 0 (absoluteTermTop - (viewportHeight - termRect.height) / 2)
    else max 0 (absoluteTermTop - offset - 8)
  ⟨targetScrollTop, 450, offset, viewportHeight, fitsInViewport, forceAdjust⟩

/-- The re-validation callback of the second revision's `scrollAdjusted`:
with the re-read rectangle `r`, issue an immediate `scrollBy` for a top
that sits above `offset + 6`, and an immediate `scrollBy` for a bottom
that overflows `viewportHeight - 8` when the captured `fitsInViewport` or
`forceAdjust` holds.  The returned list is the sequence of issued
corrective scroll amounts. -/
def revalidate (plan : ScrollPlan) (r : RectTB) : List ℚ :=
  (if r.top < plan.offset + 6 then [r.top - (plan.offset + 6)] else []) ++
    (if r.bottom > plan.viewportHeight - 8 ∧ (plan.fits = true ∨ plan.forceAdjust = true) then
      [r.bottom - (plan.viewportHeight - 8)]
    else [])

/-- Result of one `openFocusScroll` call: the new registry, the
`scrollAdjusted` invocation if one was issued (target id and the
`forceAdjust` it received), and the hash passed to `history.replaceState`
if the update was attempted. -/
structure FocusResult where
  registry : Registry
  scrolled : Option (String × Bool)
  hash : Option String
deriving DecidableEq, Repr

/-- `openFocusScroll` (second script revision).  Its guard is
`document.getElementById(id)`, which may resolve to a panel (an entry of
the registry) or to any other element of the document whose id is listed
in `extraIds` (e.g. the `h-edu` / `h-exp` headings injected by the data
loader); in a valid document ids are unique, so the two sets are disjoint.
When no element carries the id the function returns immediately.  When the
element is a panel, `focusTerminal` gives the registry effect; when it is
a non-panel element, only the global `maxwide` strip inside
`focusTerminal` touches the registry — the class edits on the element
itself lie outside it.  In both found cases it then scrolls when
`forceAdjust` or the id is in `IDs_TO_ADJUST_SCROLL` (discovered from the
`data-adjust-scroll` markup, passed in as `adjustIds`) and replaces the
location hash with `'#' + id`. -/
def openFocusScroll (extraIds adjustIds : List String) (reg : Registry)
    (id : String) (forceAdjust : Bool) : FocusResult :=
  match getState reg id with
  | some _ =>
      ⟨focusTerminal id reg,
        if forceAdjust || adjustIds.contains id then some (id, forceAdjust) else none,
        some ("#" ++ id)⟩
  | none =>
      if extraIds.contains id then
        ⟨clearAllMaximized reg,
          if forceAdjust || adjustIds.contains id then some (id, forceAdjust) else none,
          some ("#" ++ id)⟩
      else ⟨reg, none, none⟩

/-- `initialHash` of the second script revision:
`location.hash ? location.hash.slice(1) : 'about'`. -/
def initialHash (locationHash : String) : String :=
  if locationHash = "" then "about" else locationHash.drop 1

/-- The page-load navigation of the second revision: when `initialHash` is
non-empty, `openFocusScroll(initialHash, true)` is scheduled. -/
def loadNavigation (extraIds adjustIds : List String) (reg : Registry)
    (locationHash : String) : Option FocusResult :=
  let h := initialHash locationHash
  if h = "" then none else some (openFocusScroll extraIds adjustIds reg h true)

/-! ### First script revision

The source file contains an earlier revision of the same script.  Its
`focusTerminal`, `scrollAdjusted` and `openFocusScroll` are transcribed
here separately so the two revisions can be compared.  The first
revision's `IDs_TO_ADJUST_SCROLL` is the literal set
`{'about', 'education', 'experience'}`. -/

/-- `IDs_TO_ADJUST_SCROLL` of the first revision. -/
def idsToAdjustScrollV1 : List String := ["about", "education", "experience"]

/-- `focusTerminal` of the first revision. -/
def focusTerminalV1 (id : String) (reg : Registry) : Registry :=
  let reg1 := clearAllMaximized reg
  updatePanel id (fun q => { q with closed := false, minimized := false, maximized := true }) reg1

/-- `scrollAdjusted` of the first revision. -/
def scrollAdjustedV1 (g : Geometry) (termRect : Rect) (forceAdjust : Bool) : ScrollPlan :=
  let offset := getToolbarOffset g.toolbarHeight
  let absoluteTermTop := g.scrollY + termRect.top
  let viewportHeight := g.viewportHeight
  let fitsInViewport : Bool := decide (termRect.height + offset + 16 ≤ viewportHeight)
  let targetScrollTop :=
    if fitsInViewport then max 0 (absoluteTermTop - (viewportHeight - termRect.height) / 2)
    else max 0 (absoluteTermTop - offset - 8)
  ⟨targetScrollTop, 450, offset, viewportHeight, fitsInViewport, forceAdjust⟩

/-- The re-validation callback of the first revision's `scrollAdjusted`. -/
def revalidateV1 (plan : ScrollPlan) (r : RectTB) : List ℚ :=
  (if r.top < plan.offset + 6 then [r.top - (plan.offset + 6)] else []) ++
    (if r.bottom > plan.viewportHeight - 8 ∧ (plan.fits = true ∨ plan.forceAdjust = true) then
      [r.bottom - (plan.viewportHeight - 8)]
    else [])

/-- `openFocusScroll` of the first revision, with its fixed adjust set;
the `document.getElementById` guard resolves panels and the non-panel
element ids `extraIds` exactly as in the second revision. -/
def openFocusScrollV1 (extraIds : List String) (reg : Registry) (id : String)
    (forceAdjust : Bool) : FocusResult :=
  match getState reg id with
  | some _ =>
      ⟨focusTerminalV1 id reg,
        if forceAdjust || idsToAdjustScrollV1.contains id then some (id, forceAdjust) else none,
        some ("#" ++ id)⟩
  | none =>
      if extraIds.contains id then
        ⟨clearAllMaximized reg,
          if forceAdjust || idsToAdjustScrollV1.contains id then some (id, forceAdjust) else none,
          some ("#" ++ id)⟩
      else ⟨reg, none, none⟩

/-- Number of registry entries whose key is `id`. -/
def keyCount : Registry → String → Nat
  | [], _ => 0
  | e :: rest, id => (if e.1 = id then 1 else 0) + keyCount rest id

/-! ### Basic lemmas about the registry operations -/

theorem updatePanel_eq_map (id : String) (f : PanelState → PanelState) (reg : Registry) :
    updatePanel id f reg = reg.map (fun e => if e.1 = id then (e.1, f e.2) else e) := by
  induction reg with
  | nil => rfl
  | cons e rest ih => simp [updatePanel, ih]

theorem clearAllMaximized_eq_map (reg : Registry) :
    clearAllMaximized reg = reg.map (fun e => (e.1, { e.2 with maximized := false })) := by
  induction reg with
  | nil => rfl
  | cons e rest ih => simp [clearAllMaximized, ih]

theorem keys_updatePanel (id : String) (f : PanelState → PanelState) (reg : Registry) :
    keys (updatePanel id f reg) = keys reg := by
  induction reg with
  | nil => rfl
  | cons e rest ih =>
      by_cases h : e.1 = id <;> simp_all [updatePanel, keys, h]

theorem keys_clearAllMaximized (reg : Registry) :
    keys (clearAllMaximized reg) = keys reg := by
  induction reg with
  | nil => rfl
  | cons e rest ih => simp_all [clearAllMaximized, keys]

theorem keys_toggleMaximized (id : String) (reg : Registry) :
    keys (toggleMaximized id reg) = keys reg := by
  unfold toggleMaximized
  cases getState reg id with
  | none => rfl
  | some p =>
      by_cases h : p.maximized <;>
        simp [h, keys_updatePanel, keys_clearAllMaximized]

theorem keys_applyOp (reg : Registry) (op : Op) :
    keys (applyOp reg op) = keys reg := by
  cases op with
  | red id => exact keys_updatePanel id _ reg
  | yellow id => exact keys_updatePanel id _ reg
  | green id => exact keys_toggleMaximized id reg
  | focus id =>
      show keys (updatePanel id _ (clearAllMaximized reg)) = keys reg
      rw [keys_updatePanel, keys_clearAllMaximized]

theorem getState_updatePanel (id : String) (f : PanelState → PanelState) (reg : Registry) :
    getState (updatePanel id f reg) id = (getState reg id).map f := by
  induction reg with
  | nil => rfl
  | cons e rest ih =>
      by_cases h : e.1 = id
      · simp [updatePanel, getState, h]
      · simp [updatePanel, getState, h, ih]

theorem getState_clearAllMaximized (reg : Registry) (id : String) :
    getState (clearAllMaximized reg) id =
      (getState reg id).map (fun p => { p with maximized := false }) := by
  induction reg with
  | nil => rfl
  | cons e rest ih =>
      by_cases h : e.1 = id
      · simp [clearAllMaximized, getState, h]
      · simp [clearAllMaximized, getState, h, ih]

/-! ### The single-maximized invariant (counting lemmas) -/

theorem keyCount_eq_zero_of_not_mem {reg : Registry} {id : String}
    (h : id ∉ keys reg) : keyCount reg id = 0 := by
  induction reg with
  | nil => rfl
  | cons e rest ih =>
      simp only [keys, List.map_cons, List.mem_cons, not_or] at h
      have he : e.1 ≠ id := fun hc => h.1 hc.symm
      simp [keyCount, he, ih (by simpa [keys] using h.2)]

theorem keyCount_le_one_of_nodup {reg : Registry} (hn : (keys reg).Nodup)
    (id : String) : keyCount reg id ≤ 1 := by
  induction reg with
  | nil => simp [keyCount]
  | cons e rest ih =>
      simp only [keys, List.map_cons, List.nodup_cons] at hn
      by_cases h : e.1 = id
      · have : keyCount rest id = 0 :=
          keyCount_eq_zero_of_not_mem (by rw [← h]; exact hn.1)
        simp [keyCount, h, this]
      · simpa [keyCount, h] using ih hn.2

theorem keyCount_updatePanel (id id' : String) (f : PanelState → PanelState)
    (reg : Registry) : keyCount (updatePanel id f reg) id' = keyCount reg id' := by
  induction reg with
  | nil => rfl
  | cons e rest ih =>
      by_cases h : e.1 = id <;> simp [updatePanel, keyCount, h, ih]

theorem keyCount_clearAllMaximized (id : String) (reg : Registry) :
    keyCount (clearAllMaximized reg) id = keyCount reg id := by
  induction reg with
  | nil => rfl
  | cons e rest ih => simp [clearAllMaximized, keyCount, ih]

theorem maximizedCount_clearAllMaximized (reg : Registry) :
    maximizedCount (clearAllMaximized reg) = 0 := by
  induction reg with
  | nil => rfl
  | cons e rest ih => simp [clearAllMaximized, maximizedCount, ih]

theorem maximizedCount_updatePanel_of_preserves {f : PanelState → PanelState}
    (hf : ∀ p, (f p).maximized = p.maximized) (id : String) (reg : Registry) :
    maximizedCount (updatePanel id f reg) = maximizedCount reg := by
  induction reg with
  | nil => rfl
  | cons e rest ih =>
      by_cases h : e.1 = id <;> simp [updatePanel, maximizedCount, h, hf, ih]

theorem maximizedCount_updatePanel_of_clears {f : PanelState → PanelState}
    (hf : ∀ p, (f p).maximized = false) (id : String) (reg : Registry) :
    maximizedCount (updatePanel id f reg) ≤ maximizedCount reg := by
  induction reg with
  | nil => exact Nat.le_refl _
  | cons e rest ih =>
      by_cases h : e.1 = id
      · simp only [updatePanel, maximizedCount, h, if_pos, hf]
        simp only [if_neg (by simp : ¬(false = true))]
        omega
      · simp only [updatePanel, maximizedCount, h, if_neg, ite_false]
        omega

theorem maximizedCount_updatePanel_le_add (id : String) (f : PanelState → PanelState)
    (reg : Registry) :
    maximizedCount (updatePanel id f reg) ≤ maximizedCount reg + keyCount reg id := by
  induction reg with
  | nil => exact Nat.le_refl _
  | cons e rest ih =>
      by_cases h : e.1 = id
      · simp only [updatePanel, maximizedCount, keyCount, h, if_pos]
        split_ifs <;> omega
      · simp only [updatePanel, maximizedCount, keyCount, h, if_neg, ite_false]
        omega

theorem maximizedCount_applyOp_le {reg : Registry} (hn : (keys reg).Nodup)
    (h : maximizedCount reg ≤ 1) (op : Op) :
    maximizedCount (applyOp reg op) ≤ 1 := by
  cases op with
  | red id =>
      exact le_trans (maximizedCount_updatePanel_of_clears (fun p => rfl) id reg) h
  | yellow id =>
      exact le_trans (maximizedCount_updatePanel_of_clears (fun p => rfl) id reg) h
  | green id =>
      show maximizedCount (toggleMaximized id reg) ≤ 1
      unfold toggleMaximized
      cases getState reg id with
      | none => exact h
      | some p =>
          by_cases hm : p.maximized
          · simp only [hm, if_pos]
            rw [maximizedCount_updatePanel_of_preserves
                (f := fun q => { q with closed := false, minimized := false })
                (fun q => rfl), maximizedCount_clearAllMaximized]
            exact Nat.zero_le 1
          · simp only [hm, Bool.false_eq_true, if_neg, ite_false]
            refine le_trans (maximizedCount_updatePanel_le_add id _ _) ?_
            rw [maximizedCount_updatePanel_of_preserves
                (f := fun q => { q with closed := false, minimized := false })
                (fun q => rfl),
              maximizedCount_clearAllMaximized, keyCount_updatePanel,
              keyCount_clearAllMaximized]
            simpa using keyCount_le_one_of_nodup hn id
  | focus id =>
      show maximizedCount (updatePanel id _ (clearAllMaximized reg)) ≤ 1
      refine le_trans (maximizedCount_updatePanel_le_add id _ _) ?_
      rw [maximizedCount_clearAllMaximized, keyCount_clearAllMaximized]
      simpa using keyCount_le_one_of_nodup hn id

theorem maximizedCount_applyOps_le (ops : List Op) :
    ∀ reg : Registry, (keys reg).Nodup → maximizedCount reg ≤ 1 →
      maximizedCount (applyOps reg ops) ≤ 1 := by
  induction ops with
  | nil => intro reg _ h; exact h
  | cons op rest ih =>
      intro reg hn h
      have hk : keys (applyOp reg op) = keys reg := keys_applyOp reg op
      exact ih (applyOp reg op) (by rw [hk]; exact hn) (maximizedCount_applyOp_le hn h op)

theorem keys_initRegistry (ids : List String) : keys (initRegistry ids) = ids := by
  induction ids with
  | nil => rfl
  | cons i rest ih => simp_all [keys, initRegistry]

theorem maximizedCount_initRegistry (ids : List String) :
    maximizedCount (initRegistry ids) = 0 := by
  induction ids with
  | nil => rfl
  | cons i rest ih => simp [initRegistry, maximizedCount, PanelState.initial] at *; exact ih

/-! ### Per-panel flag exclusivity -/

theorem allExclusive_clearAllMaximized {reg : Registry} (h : allExclusive reg) :
    allExclusive (clearAllMaximized reg) := by
  intro e he
  rw [clearAllMaximized_eq_map] at he
  obtain ⟨a, ha, rfl⟩ := List.mem_map.1 he
  have hstep : ∀ p : PanelState, flagCount p ≤ 1 →
      flagCount { p with maximized := false } ≤ 1 := by decide
  exact hstep a.2 (h a ha)

theorem allExclusive_updatePanel_strong {f : PanelState → PanelState}
    (hf : ∀ p, flagCount (f p) ≤ 1) {reg : Registry} (h : allExclusive reg)
    (id : String) : allExclusive (updatePanel id f reg) := by
  intro e he
  rw [updatePanel_eq_map] at he
  obtain ⟨a, ha, rfl⟩ := List.mem_map.1 he
  by_cases hid : a.1 = id
  · simpa [panelExclusive, hid] using hf a.2
  · simpa [panelExclusive, hid] using h a ha

theorem mem_updatePanel_closed_min_false {reg : Registry} {id : String}
    {e : String × PanelState}
    (he : e ∈ updatePanel id (fun q => { q with closed := false, minimized := false }) reg)
    (hid : e.1 = id) : e.2.closed = false ∧ e.2.minimized = false := by
  rw [updatePanel_eq_map] at he
  obtain ⟨a, ha, rfl⟩ := List.mem_map.1 he
  by_cases h : a.1 = id
  · simp [h]
  · rw [if_neg h] at hid
    exact absurd hid h

theorem allExclusive_toggleMaximized {reg : Registry} (h : allExclusive reg)
    (id : String) : allExclusive (toggleMaximized id reg) := by
  unfold toggleMaximized
  cases getState reg id with
  | none => exact h
  | some p =>
      have h2 : allExclusive
          (updatePanel id (fun q => { q with closed := false, minimized := false })
            (clearAllMaximized reg)) :=
        allExclusive_updatePanel_strong (by decide) (allExclusive_clearAllMaximized h) id
      by_cases hm : p.maximized
      · simpa [hm] using h2
      · simp only [hm, Bool.false_eq_true, if_false]
        intro e he
        rw [updatePanel_eq_map] at he
        obtain ⟨a, ha, rfl⟩ := List.mem_map.1 he
        by_cases hid : a.1 = id
        · have hcm := mem_updatePanel_closed_min_false ha hid
          simp [panelExclusive, flagCount, hid, hcm.1, hcm.2]
        · simpa [panelExclusive, hid] using h2 a ha

theorem allExclusive_applyOp {reg : Registry} (h : allExclusive reg) (op : Op) :
    allExclusive (applyOp reg op) := by
  cases op with
  | red id => exact allExclusive_updatePanel_strong (by decide) h id
  | yellow id => exact allExclusive_updatePanel_strong (by decide) h id
  | green id => exact allExclusive_toggleMaximized h id
  | focus id =>
      exact allExclusive_updatePanel_strong (by decide)
        (allExclusive_clearAllMaximized h) id

theorem allExclusive_applyOps (ops : List Op) :
    ∀ reg : Registry, allExclusive reg → allExclusive (applyOps reg ops) := by
  induction ops with
  | nil => intro reg h; exact h
  | cons op rest ih =>
      intro reg h
      exact ih (applyOp reg op) (allExclusive_applyOp h op)

theorem allExclusive_initRegistry (ids : List String) :
    allExclusive (initRegistry ids) := by
  intro e he
  simp only [initRegistry] at he
  obtain ⟨a, _, rfl⟩ := List.mem_map.1 he
  show flagCount PanelState.initial ≤ 1
  decide

/-! ### Lemmas about focusTerminal and toggleClosed -/

theorem focusTerminal_eq_map (id : String) (reg : Registry) :
    focusTerminal id reg = reg.map (fun e =>
      if e.1 = id then (e.1, (⟨false, false, true⟩ : PanelState))
      else (e.1, { e.2 with maximized := false })) := by
  show updatePanel id _ (clearAllMaximized reg) = _
  rw [updatePanel_eq_map, clearAllMaximized_eq_map, List.map_map]
  refine List.map_congr_left ?_
  intro a _
  by_cases h : a.1 = id <;> simp [Function.comp, h]

theorem getState_focusTerminal {reg : Registry} {id : String} {p : PanelState}
    (h : getState reg id = some p) :
    getState (focusTerminal id reg) id = some ⟨false, false, true⟩ := by
  show getState (updatePanel id _ (clearAllMaximized reg)) id = _
  rw [getState_updatePanel, getState_clearAllMaximized, h]
  rfl

theorem maximized_false_of_mem_focusTerminal {reg : Registry} {id : String}
    {e : String × PanelState} (he : e ∈ focusTerminal id reg) (hne : e.1 ≠ id) :
    e.2.maximized = false := by
  rw [focusTerminal_eq_map] at he
  obtain ⟨a, ha, rfl⟩ := List.mem_map.1 he
  by_cases h : a.1 = id
  · rw [if_pos h] at hne
    exact absurd h hne
  · rw [if_neg h]

theorem focusTerminal_idempotent (id : String) (reg : Registry) :
    focusTerminal id (focusTerminal id reg) = focusTerminal id reg := by
  rw [focusTerminal_eq_map id reg, focusTerminal_eq_map, List.map_map]
  refine List.map_congr_left ?_
  intro a _
  by_cases h : a.1 = id <;> simp [Function.comp, h]

theorem getState_eq_of_nodup {reg : Registry} (hn : (keys reg).Nodup)
    {id : String} {p q : PanelState} (h : getState reg id = some p)
    (hq : (id, q) ∈ reg) : q = p := by
  induction reg with
  | nil => cases hq
  | cons e rest ih =>
      simp only [keys, List.map_cons, List.nodup_cons] at hn
      rcases List.mem_cons.1 hq with he | hrest
      · rw [← he] at h
        simp only [getState, if_pos rfl] at h
        exact Option.some.inj h
      · by_cases hkey : e.1 = id
        · exfalso
          apply hn.1
          rw [hkey]
          exact List.mem_map.2 ⟨(id, q), hrest, rfl⟩
        · simp only [getState, if_neg hkey] at h
          exact ih hn.2 h hrest

theorem flagCount_closed_forces {p : PanelState} (hex : flagCount p ≤ 1)
    (hc : p.closed = true) : p.minimized = false ∧ p.maximized = false := by
  revert hex hc
  revert p
  decide

/-! ### Claim theorems -/

/-- C1: starting from the initial registry (no panel maximized) over distinct
panel ids, every sequence of window-control operations — in particular every
sequence of green-button `toggleMaximized` and `focusTerminal`
(`setMaximizedExclusive`) calls — leaves at most one panel with
`maximized = true` after each operation (every prefix of a sequence is itself
a sequence, so this covers each intermediate state). -/
theorem c1_maximized_mutual_exclusion (ids : List String) (hn : ids.Nodup)
    (ops : List Op) : atMostOneMaximized (applyOps (initRegistry ids) ops) := by
  refine maximizedCount_applyOps_le ops (initRegistry ids) ?_ ?_
  · rw [keys_initRegistry]; exact hn
  · rw [maximizedCount_initRegistry]; exact Nat.zero_le 1

/-- Witness: `c1_maximized_mutual_exclusion` applied at a concrete registry
and operation sequence. -/
theorem c1_maximized_mutual_exclusion_witness :
    (["about", "education"] : List String).Nodup ∧
      atMostOneMaximized
        (applyOps (initRegistry ["about", "education"])
          [Op.green "about", Op.focus "education", Op.green "education"]) :=
  ⟨by decide, c1_maximized_mutual_exclusion ["about", "education"] (by decide)
    [Op.green "about", Op.focus "education", Op.green "education"]⟩

/-- C2: starting from the initial registry, after every sequence of toggle
operations (`toggleClosed`, `toggleMinimized`, `toggleMaximized`, and also
`focusTerminal`) every panel has at most one of
`{closed, minimized, maximized}` set: each operation that sets a flag clears
the other two on the same panel. -/
theorem c2_flag_exclusivity (ids : List String) (ops : List Op) :
    allExclusive (applyOps (initRegistry ids) ops) :=
  allExclusive_applyOps ops (initRegistry ids) (allExclusive_initRegistry ids)

/-- C3: for every starting registry and every known panel id,
`focusTerminal` (`setMaximizedExclusive`) leaves the target panel with
`closed = false, minimized = false, maximized = true`, leaves every other
panel un-maximized, and is idempotent (the result does not depend on the
prior state of the flags it sets). -/
theorem c3_setMaximizedExclusive_determinism (reg : Registry) (id : String)
    (p : PanelState) (h : getState reg id = some p) :
    getState (focusTerminal id reg) id = some ⟨false, false, true⟩ ∧
      (∀ e ∈ focusTerminal id reg, e.1 ≠ id → e.2.maximized = false) ∧
      focusTerminal id (focusTerminal id reg) = focusTerminal id reg :=
  ⟨getState_focusTerminal h,
    fun _ he hne => maximized_false_of_mem_focusTerminal he hne,
    focusTerminal_idempotent id reg⟩

/-- Witness: `c3_setMaximizedExclusive_determinism` applied to a concrete
registry in which the target starts closed and another panel starts
maximized. -/
theorem c3_setMaximizedExclusive_determinism_witness :
    getState [("about", (⟨true, false, false⟩ : PanelState)),
        ("links", ⟨false, false, true⟩)] "about" = some ⟨true, false, false⟩ ∧
      (getState (focusTerminal "about"
          [("about", ⟨true, false, false⟩), ("links", ⟨false, false, true⟩)])
          "about" = some ⟨false, false, true⟩ ∧
        (∀ e ∈ focusTerminal "about"
            [("about", ⟨true, false, false⟩), ("links", ⟨false, false, true⟩)],
          e.1 ≠ "about" → e.2.maximized = false) ∧
        focusTerminal "about" (focusTerminal "about"
            [("about", ⟨true, false, false⟩), ("links", ⟨false, false, true⟩)]) =
          focusTerminal "about"
            [("about", ⟨true, false, false⟩), ("links", ⟨false, false, true⟩)]) :=
  ⟨by decide,
    c3_setMaximizedExclusive_determinism
      [("about", ⟨true, false, false⟩), ("links", ⟨false, false, true⟩)]
      "about" ⟨true, false, false⟩ (by decide)⟩

/-- C5: `toggleClosed` (red button) flips the panel's `closed` flag and
forces `minimized = false, maximized = false` on it; when the resulting
`closed` is `false` (the panel was closed, and hence by flag exclusivity had
no other flag set), nothing but the target's `closed` flag changes anywhere
in the registry; panels other than the target are never touched. -/
theorem c5_toggleClosed_spec (reg : Registry) (id : String) (p : PanelState)
    (hn : (keys reg).Nodup) (hex : allExclusive reg)
    (h : getState reg id = some p) :
    getState (toggleClosed id reg) id = some ⟨!p.closed, false, false⟩ ∧
      (∀ e ∈ reg, e.1 ≠ id → e ∈ toggleClosed id reg) ∧
      (p.closed = true →
        toggleClosed id reg =
          updatePanel id (fun q => { q with closed := false }) reg) := by
  refine ⟨?_, ?_, ?_⟩
  · show getState (updatePanel id _ reg) id = _
    rw [getState_updatePanel, h]
    rfl
  · intro e he hne
    show e ∈ updatePanel id _ reg
    rw [updatePanel_eq_map]
    exact List.mem_map.2 ⟨e, he, by rw [if_neg hne]⟩
  · intro hc
    show updatePanel id _ reg = updatePanel id _ reg
    rw [updatePanel_eq_map, updatePanel_eq_map]
    refine List.map_congr_left ?_
    intro a ha
    by_cases hkey : a.1 = id
    · have haq : (id, a.2) ∈ reg := by
        have : a = (id, a.2) := by
          rw [← hkey]
        rw [← this]
        exact ha
      have hap : a.2 = p := getState_eq_of_nodup hn h haq
      have hforced := flagCount_closed_forces (hex a ha) (by rw [hap]; exact hc)
      rw [if_pos hkey, if_pos hkey]
      have hclosed : a.2.closed = true := by rw [hap]; exact hc
      cases a with
      | mk k st =>
          cases st with
          | mk c m x =>
              simp only at hclosed hforced
              simp [hclosed, hforced.1, hforced.2]
    · rw [if_neg hkey, if_neg hkey]

/-- Witness: `c5_toggleClosed_spec` applied to a concrete registry whose
target panel is closed. -/
theorem c5_toggleClosed_spec_witness :
    (keys [("about", (⟨true, false, false⟩ : PanelState)),
        ("links", ⟨false, false, true⟩)]).Nodup ∧
      allExclusive [("about", ⟨true, false, false⟩), ("links", ⟨false, false, true⟩)] ∧
      getState [("about", ⟨true, false, false⟩), ("links", ⟨false, false, true⟩)]
          "about" = some ⟨true, false, false⟩ ∧
      getState (toggleClosed "about"
          [("about", ⟨true, false, false⟩), ("links", ⟨false, false, true⟩)])
          "about" = some ⟨false, false, false⟩ :=
  ⟨by decide, by decide, by decide,
    (c5_toggleClosed_spec
        [("about", ⟨true, false, false⟩), ("links", ⟨false, false, true⟩)]
        "about" ⟨true, false, false⟩ (by decide) (by decide) (by decide)).1⟩

/-- C4: the scroll-target arithmetic of `scrollAdjusted`: the offset is the
toolbar height (0 when absent) plus 12; when
`panelHeight + offset + 16 ≤ viewportHeight` the smooth-scroll target is the
panel's absolute top minus `(viewportHeight - panelHeight) / 2`, floored at
0; otherwise it is the absolute top minus `(offset + 8)`, floored at 0.  In
particular with offset 50 (toolbar height 38), panel height 300 and viewport
height 800 the target is `absoluteTop - 250`, and with panel height 900 it
is `absoluteTop - 58`, each clamped at 0. -/
theorem c4_scroll_target (force : Bool) :
    getToolbarOffset none = 12 ∧
    (∀ h : ℚ, getToolbarOffset (some h) = h + 12) ∧
    (∀ (g : Geometry) (r : Rect),
      r.height + getToolbarOffset g.toolbarHeight + 16 ≤ g.viewportHeight →
        (scrollAdjusted g r force).smoothTarget =
          max 0 (g.scrollY + r.top - (g.viewportHeight - r.height) / 2)) ∧
    (∀ (g : Geometry) (r : Rect),
      ¬(r.height + getToolbarOffset g.toolbarHeight + 16 ≤ g.viewportHeight) →
        (scrollAdjusted g r force).smoothTarget =
          max 0 (g.scrollY + r.top - (getToolbarOffset g.toolbarHeight + 8))) ∧
    (∀ y top : ℚ, (scrollAdjusted ⟨some 38, y, 800⟩ ⟨top, 300⟩ force).smoothTarget =
      max 0 (y + top - 250)) ∧
    (∀ y top : ℚ, (scrollAdjusted ⟨some 38, y, 800⟩ ⟨top, 900⟩ force).smoothTarget =
      max 0 (y + top - 58)) := by
  have hfit : ∀ (g : Geometry) (r : Rect),
      r.height + getToolbarOffset g.toolbarHeight + 16 ≤ g.viewportHeight →
        (scrollAdjusted g r force).smoothTarget =
          max 0 (g.scrollY + r.top - (g.viewportHeight - r.height) / 2) := by
    intro g r h
    simp [scrollAdjusted, h]
  have hnofit : ∀ (g : Geometry) (r : Rect),
      ¬(r.height + getToolbarOffset g.toolbarHeight + 16 ≤ g.viewportHeight) →
        (scrollAdjusted g r force).smoothTarget =
          max 0 (g.scrollY + r.top - (getToolbarOffset g.toolbarHeight + 8)) := by
    intro g r h
    simp only [scrollAdjusted, decide_eq_true_eq, if_neg h]
    ring_nf
  refine ⟨by norm_num [getToolbarOffset], fun h => rfl, hfit, hnofit, ?_, ?_⟩
  · intro y top
    rw [hfit ⟨some 38, y, 800⟩ ⟨top, 300⟩ (by norm_num [getToolbarOffset])]
    norm_num
  · intro y top
    rw [hnofit ⟨some 38, y, 800⟩ ⟨top, 900⟩ (by norm_num [getToolbarOffset])]
    norm_num [getToolbarOffset]

/-- Witness: the centering branch of `c4_scroll_target` at concrete
geometry (toolbar height 38, viewport 800, panel height 300, absolute top
1000). -/
theorem c4_scroll_target_witness :
    ((300 : ℚ) + getToolbarOffset (some 38) + 16 ≤ 800) ∧
      (scrollAdjusted ⟨some 38, 1000, 800⟩ ⟨0, 300⟩ true).smoothTarget =
        max 0 ((1000 : ℚ) + 0 - (800 - 300) / 2) :=
  ⟨by norm_num [getToolbarOffset],
    (c4_scroll_target true).2.2.1 ⟨some 38, 1000, 800⟩ ⟨0, 300⟩
      (by norm_num [getToolbarOffset])⟩

/-- C6 counterexample: the id `h-edu` (a heading element injected by the
data loader) does not resolve to a panel, yet `openFocusScroll` is not a
no-op on it: the `getElementById` guard passes, the maximized `about`
panel loses its `maximized` flag, a scroll is issued and a hash update is
attempted. -/
theorem c6_unknown_id_counterexample :
    getState [("about", (⟨false, false, true⟩ : PanelState))] "h-edu" = none ∧
      (openFocusScroll ["h-edu"] [] [("about", ⟨false, false, true⟩)]
          "h-edu" true).registry ≠ [("about", ⟨false, false, true⟩)] ∧
      (openFocusScroll ["h-edu"] [] [("about", ⟨false, false, true⟩)]
          "h-edu" true).scrolled ≠ none ∧
      (openFocusScroll ["h-edu"] [] [("about", ⟨false, false, true⟩)]
          "h-edu" true).hash ≠ none := by
  decide

/-- C6 (amended): for an id that resolves to no element of the document at
all (neither a panel nor a non-panel element id), `openFocusScroll` is a
complete no-op: the registry is returned unchanged, no scroll is issued
and no hash update is attempted (and, being a total function, it cannot
throw).  For an id that resolves to a non-panel element the early return
does not fire: the only panel-state change is clearing `maximized` on
every panel, and the scroll decision and hash update proceed as for a
panel. -/
theorem c6_unknown_id_noop (extraIds adjustIds : List String) (reg : Registry)
    (id : String) (force : Bool) (h : getState reg id = none) :
    (extraIds.contains id = false →
      openFocusScroll extraIds adjustIds reg id force = ⟨reg, none, none⟩) ∧
    (extraIds.contains id = true →
      openFocusScroll extraIds adjustIds reg id force =
        ⟨clearAllMaximized reg,
          if force || adjustIds.contains id then some (id, force) else none,
          some ("#" ++ id)⟩) := by
  constructor
  · intro hx
    have hx' : id ∉ extraIds := by simpa using hx
    simp [openFocusScroll, h, hx']
  · intro hx
    have hx' : id ∈ extraIds := by simpa using hx
    simp [openFocusScroll, h, hx']

/-- Witness: `c6_unknown_id_noop` on a concrete document in which
`"does-not-exist"` names no element at all. -/
theorem c6_unknown_id_noop_witness :
    getState (initRegistry ["about", "links"]) "does-not-exist" = none ∧
      (["h-edu"] : List String).contains "does-not-exist" = false ∧
      openFocusScroll ["h-edu"] ["about"] (initRegistry ["about", "links"])
          "does-not-exist" true =
        ⟨initRegistry ["about", "links"], none, none⟩ :=
  ⟨by decide, by decide,
    (c6_unknown_id_noop ["h-edu"] ["about"] (initRegistry ["about", "links"])
        "does-not-exist" true (by decide)).1 (by decide)⟩

/-- C7: the re-validation scheduled by `scrollAdjusted` runs after a fixed
delay of 450 units with the captured offset, viewport height,
`fitsInViewport` and `forceAdjust`; on the re-read rectangle `r` it issues
the correction `r.top - (offset + 6)` exactly when `r.top < offset + 6`,
issues the correction `r.bottom - (viewportHeight - 8)` exactly when
`r.bottom > viewportHeight - 8` and (`fitsInViewport` or `forceAdjust`)
holds, and issues no other correction. -/
theorem c7_revalidation (g : Geometry) (termRect : Rect) (force : Bool)
    (r : RectTB) :
    (scrollAdjusted g termRect force).delay = 450 ∧
    (scrollAdjusted g termRect force).fits =
      decide (termRect.height + getToolbarOffset g.toolbarHeight + 16 ≤
        g.viewportHeight) ∧
    (∀ c : ℚ, c ∈ revalidate (scrollAdjusted g termRect force) r ↔
      ((r.top < getToolbarOffset g.toolbarHeight + 6 ∧
          c = r.top - (getToolbarOffset g.toolbarHeight + 6)) ∨
        (r.bottom > g.viewportHeight - 8 ∧
          ((scrollAdjusted g termRect force).fits = true ∨ force = true) ∧
          c = r.bottom - (g.viewportHeight - 8)))) := by
  refine ⟨rfl, rfl, ?_⟩
  intro c
  by_cases h1 : r.top < getToolbarOffset g.toolbarHeight + 6 <;>
    by_cases h2 : r.bottom > g.viewportHeight - 8 ∧
      ((scrollAdjusted g termRect force).fits = true ∨ force = true) <;>
    simp [revalidate, scrollAdjusted, h1, h2] <;>
    tauto

/-- Witness: `c7_revalidation` applied at concrete geometry; the scheduled
re-validation delay is 450 and a bottom overflow of a fitting panel is
corrected by the overflow amount. -/
theorem c7_revalidation_witness :
    (scrollAdjusted ⟨some 38, 0, 800⟩ ⟨0, 300⟩ true).delay = 450 :=
  (c7_revalidation ⟨some 38, 0, 800⟩ ⟨0, 300⟩ true ⟨100, 400⟩).1

/-- C8: loading with no URL fragment resolves the default id `about`:
`initialHash` of the empty hash is `"about"`, the page-load navigation
calls `openFocusScroll "about" true`, and when an `about` panel exists it
ends up maximized (with `closed`/`minimized` cleared). -/
theorem c8_default_fragment (extraIds adjustIds : List String) (reg : Registry)
    (p : PanelState) (h : getState reg "about" = some p) :
    initialHash "" = "about" ∧
      loadNavigation extraIds adjustIds reg "" =
        some (openFocusScroll extraIds adjustIds reg "about" true) ∧
      getState (openFocusScroll extraIds adjustIds reg "about" true).registry
          "about" = some ⟨false, false, true⟩ := by
  refine ⟨rfl, by simp [loadNavigation, initialHash], ?_⟩
  have hreg : (openFocusScroll extraIds adjustIds reg "about" true).registry =
      focusTerminal "about" reg := by
    simp [openFocusScroll, h]
  rw [hreg]
  exact getState_focusTerminal h

/-- Witness: `c8_default_fragment` applied to a concrete registry holding
an `about` panel. -/
theorem c8_default_fragment_witness :
    getState (initRegistry ["about", "links"]) "about" =
        some PanelState.initial ∧
      getState (openFocusScroll ["h-edu"] ["about"]
          (initRegistry ["about", "links"]) "about" true).registry "about" =
        some ⟨false, false, true⟩ :=
  ⟨by decide,
    (c8_default_fragment ["h-edu"] ["about"] (initRegistry ["about", "links"])
        PanelState.initial (by decide)).2.2⟩

/-- C9 counterexample: a panel with only `closed = true` emits the label
`"cerrada"`, not the `"closed"` stated by the claim — the code's label set
is the Spanish `{'cerrada', 'minimizada', 'max'}`. -/
theorem c9_label_counterexample :
    refreshTitleState ⟨true, false, false⟩ = "cerrada" ∧
      refreshTitleState ⟨true, false, false⟩ ≠ "closed" := by
  constructor
  · rfl
  · decide

/-- C9 (amended): after every mutation the emitted title-state label is the
space-joined subset of `{"cerrada", "minimizada", "max"}` corresponding to
the true flags, in the fixed order closed, minimized, then max, and the
empty string when no flag is true — the complete table over all eight flag
combinations. -/
theorem c9_title_state_labels :
    refreshTitleState ⟨false, false, false⟩ = "" ∧
    refreshTitleState ⟨true, false, false⟩ = "cerrada" ∧
    refreshTitleState ⟨false, true, false⟩ = "minimizada" ∧
    refreshTitleState ⟨false, false, true⟩ = "max" ∧
    refreshTitleState ⟨true, true, false⟩ = "cerrada minimizada" ∧
    refreshTitleState ⟨true, false, true⟩ = "cerrada max" ∧
    refreshTitleState ⟨false, true, true⟩ = "minimizada max" ∧
    refreshTitleState ⟨true, true, true⟩ = "cerrada minimizada max" :=
  ⟨rfl, rfl, rfl, rfl, rfl, rfl, rfl, rfl⟩

/-- C10: the first and second script revisions are behaviorally equivalent
at the duplicated entry points: `scrollAdjusted` of both revisions computes
the same plan (hence the same smooth-scroll target), the two re-validation
callbacks issue the same corrections on every plan and re-read rectangle,
and the two `openFocusScroll`s produce the same registry mutation and the
same hash update for every id — panel, non-panel element, or absent — for
any adjust-scroll id set the second revision discovers from the markup. -/
theorem c10_revisions_equivalent :
    (∀ (g : Geometry) (r : Rect) (force : Bool),
      scrollAdjustedV1 g r force = scrollAdjusted g r force) ∧
    (∀ (plan : ScrollPlan) (r : RectTB), revalidateV1 plan r = revalidate plan r) ∧
    (∀ (extraIds : List String) (reg : Registry) (id : String) (force : Bool)
        (adjustIds : List String),
      (openFocusScrollV1 extraIds reg id force).registry =
        (openFocusScroll extraIds adjustIds reg id force).registry ∧
      (openFocusScrollV1 extraIds reg id force).hash =
        (openFocusScroll extraIds adjustIds reg id force).hash) := by
  refine ⟨fun g r force => rfl, fun plan r => rfl, ?_⟩
  intro extraIds reg id force adjustIds
  unfold openFocusScrollV1 openFocusScroll focusTerminalV1 focusTerminal
  cases getState reg id <;> by_cases hx : id ∈ extraIds <;> simp [hx]

end Osvo
